import Mathlib

/-!
Verification of the MSSQL-to-GCS transfer operator
(`airflow/providers/google/cloud/transfers/mssql_to_gcs.py`,
class `MSSQLToGCSOperator`).

The operator methods are shallowly embedded as Lean functions over a small
model of Python runtime values.  Fallible Python code is embedded as
`Except PyError`, with the two exception classes that can actually arise in
the embedded fragment (`AttributeError` and `IndexError`).  Evaluation order
inside the embedded bodies follows CPython: the entries of a dict literal are
evaluated left to right, and for a call `obj.attr(args)` the callee
`obj.attr` is resolved before the arguments are evaluated.
-/

deriving instance DecidableEq for Except

namespace MssqlToGcs

/-- The Python runtime values that appear in the embedded fragment: `None`,
booleans, integers, strings, and type objects (the values pyodbc places at
position 1 of a `cursor.description` tuple, for example the class `int`; a
type object named `n` has `__name__` equal to `n`).  Column-metadata tuples
are embedded as `List PyVal`. -/
inductive PyVal where
  | pyNone
  | pyBool (b : Bool)
  | pyInt (n : Int)
  | pyStr (s : String)
  | typeObj (tyName : String)
deriving DecidableEq, Repr

/-- The Python exceptions reachable in the embedded fragment.  In Python,
`IndexError` is a `LookupError` while `AttributeError` is not. -/
inductive PyError where
  | attributeError (msg : String)
  | indexError (msg : String)
deriving DecidableEq, Repr

/-- Python truthiness of the embedded values, as used by
`'NULLABLE' if field[6] else 'REQUIRED'` on line 74. -/
def truthy : PyVal → Bool
  | PyVal.pyNone => false
  | PyVal.pyBool b => b
  | PyVal.pyInt n => n != 0
  | PyVal.pyStr s => !s.isEmpty
  | PyVal.typeObj _ => true

/-- Reading the `__name__` attribute: type objects carry their name; none of
the other embedded values (in particular plain strings) has a `__name__`
attribute. -/
def dunderName : PyVal → Option String
  | PyVal.typeObj n => some n
  | _ => Option.none

/-- The `AttributeError` raised by `mssql_type.__name__` (line 82) when the
argument has no `__name__` attribute; the per-type detail of the CPython
message text is abstracted to a fixed string. -/
def no_dunder_name_err : PyError :=
  PyError.attributeError ("object has no attribute __name__")

/-- The `AttributeError` raised by the attribute access `self.type_map.get`
on line 73 (see `type_map_dot_get`). -/
def get_attr_err : PyError :=
  PyError.attributeError ("function object has no attribute get")

/-- Python tuple indexing `field[i]` for a non-negative literal index:
out-of-range access raises `IndexError`. -/
def getItem (t : List PyVal) (i : Nat) : Except PyError PyVal :=
  match t.get? i with
  | some v => Except.ok v
  | Option.none => Except.error (PyError.indexError ("tuple index out of range"))

/-- The method call `field[0].replace(" ", "_")` on line 72: defined on
strings (Lean `String.replace` agrees with the Python single-character,
non-overlapping replacement used here); on the other embedded values the
attribute access `.replace` raises `AttributeError`. -/
def py_replace_space (v : PyVal) : Except PyError String :=
  match v with
  | PyVal.pyStr s => Except.ok (s.replace (" ") ("_"))
  | _ => Except.error (PyError.attributeError ("object has no attribute replace"))

/-- The Python string method `lower()` as used on line 111: ASCII
lower-casing applied character-wise.  (Equivalent to `String.toLower`, which
is defined through `String.mapAux` and therefore does not evaluate inside the
kernel; the character-wise form does.) -/
def py_lower (s : String) : String := String.mk (s.data.map Char.toLower)

/-- The Python string method `upper()` (used only to state the
case-insensitivity property): ASCII upper-casing applied character-wise. -/
def py_upper (s : String) : String := String.mk (s.data.map Char.toUpper)

/-- The literal lookup table `schema_dict` of `type_map` (lines 83 to 110),
in source order; all keys are distinct, so association-list lookup agrees
with Python dict lookup. -/
def schema_dict : List (String × String) :=
  [ (("int"), ("INTEGER"))
  , (("tinyint"), ("INTEGER"))
  , (("smallint"), ("INTEGER"))
  , (("bigint"), ("INTEGER"))
  , (("bit"), ("BOOLEAN"))
  , (("bool"), ("BOOLEAN"))
  , (("char"), ("STRING"))
  , (("varchar"), ("STRING"))
  , (("text"), ("STRING"))
  , (("nchar"), ("STRING"))
  , (("nvarchar"), ("STRING"))
  , (("ntext"), ("STRING"))
  , (("uuid"), ("STRING"))
  , (("str"), ("STRING"))
  , (("money"), ("NUMERIC"))
  , (("numeric"), ("NUMERIC"))
  , (("smallmoney"), ("NUMERIC"))
  , (("decimal"), ("NUMERIC"))
  , (("datetime"), ("DATETIME"))
  , (("datetime2"), ("DATETIME"))
  , (("smalldatetime"), ("DATETIME"))
  , (("date"), ("DATE"))
  , (("time"), ("TIME"))
  , (("float"), ("FLOAT"))
  , (("real"), ("FLOAT"))
  , (("double"), ("FLOAT")) ]

/-- The classmethod `type_map` (lines 77 to 114): line 82 reads
`value = mssql_type.__name__`, raising `AttributeError` when the argument has
no `__name__`; lines 111 to 114 look up `value.lower()` in `schema_dict` and
fall back to `"STRING"`. -/
def type_map (mssql_type : PyVal) : Except PyError String :=
  match dunderName mssql_type with
  | Option.none => Except.error no_dunder_name_err
  | some value =>
    match schema_dict.lookup (py_lower value) with
    | some v => Except.ok v
    | Option.none => Except.ok ("STRING")

/-- The callee resolution for `self.type_map.get(field[1], "STRING")` on
line 73.  Because `type_map` is declared with `@classmethod` (line 77),
`self.type_map` evaluates to a bound method, not to a dict.  CPython resolves
a further attribute on a bound method by looking at the method object and
then at the wrapped function; neither defines an attribute named `get` (that
is a method of `dict`), so the access raises `AttributeError` before the
call arguments are evaluated.  Were it to succeed, the callee would be a
function from a key and a default string to a string, hence the type. -/
def type_map_dot_get : Except PyError (PyVal → String → String) :=
  Except.error get_attr_err

/-- The field descriptor dict returned by `field_to_bigquery`
(lines 71 to 75). -/
structure FieldDescriptor where
  name : String
  type : String
  mode : String
deriving DecidableEq, Repr

/-- The method `field_to_bigquery` (lines 70 to 75), with the dict-literal
entries evaluated in source order: the name value `field[0].replace(" ", "_")`;
then the type value, whose callee `self.type_map.get` is resolved first (and
raises, see `type_map_dot_get`) and whose arguments `field[1]` and `"STRING"`
would be evaluated next; then the mode value
`'NULLABLE' if field[6] else 'REQUIRED'`. -/
def field_to_bigquery (field : List PyVal) : Except PyError FieldDescriptor := do
  let f0 ← getItem field 0
  let name ← py_replace_space f0
  let get ← type_map_dot_get
  let f1 ← getItem field 1
  let ty := get f1 ("STRING")
  let f6 ← getItem field 6
  Except.ok (FieldDescriptor.mk name ty (if truthy f6 then ("NULLABLE") else ("REQUIRED")))

/-- The classmethod `convert_type` (lines 116 to 119): returns its `value`
argument unchanged. -/
def convert_type (value schema_type : PyVal) : PyVal := value

/-- The cursor obtained in `query`: the only state the embedded fragment
observes is which SQL statement (if any) `cursor.execute` has run on it. -/
structure Cursor where
  executed_sql : Option String
deriving DecidableEq, Repr

/-- The method `query` (lines 58 to 68).  Connection acquisition
(`OdbcHook(...)`, `get_conn()`, `raw_connection()`) is an external
collaborator and is modelled only by the fresh cursor it yields; the body
then runs `cursor.execute(self.sql)` and ends without a `return` statement,
so the Python call returns `None`.  The result pairs the returned value (as
`Option Cursor`, `Option.none` standing for Python `None`) with the final
state of the cursor. -/
def query (mssql_conn_id sql : String) : Option Cursor × Cursor :=
  let cursor : Cursor := { executed_sql := Option.none }
  let cursor : Cursor := { cursor with executed_sql := some sql }
  (Option.none, cursor)

/-- C1: the claim says `query` returns the resulting cursor; in the code the
body of `query` executes the statement on the cursor but has no `return`
statement (contradicting its own docstring `:return: mssql cursor`), so for
every connection id and SQL statement the Python call returns `None`, never
a cursor. -/
theorem C1_query_executes_but_returns_none :
    ∀ conn_id sql : String,
      (query conn_id sql).1 = Option.none ∧
        (query conn_id sql).2.executed_sql = some sql := by
  intro conn_id sql
  exact ⟨rfl, rfl⟩

/-- C2: the claim says `field_to_bigquery` returns a descriptor without
raising for every well-formed seven-element metadata tuple; in the code it
raises `AttributeError` on every input, because `self.type_map` is a bound
classmethod and has no `get` attribute.  Evaluation at a well-formed tuple
(name string, registered type object, nullable flag at position 6). -/
theorem C2_field_to_bigquery_raises_on_wellformed_tuple :
    field_to_bigquery
        [PyVal.pyStr ("a"), PyVal.typeObj ("int"), PyVal.pyNone, PyVal.pyNone,
          PyVal.pyNone, PyVal.pyNone, PyVal.pyBool true]
      = Except.error get_attr_err := rfl

/-- C3 counterexample: the claim says every tag in the lookup table maps to
its listed destination tag and `type_map` never raises; but a tag is passed
to `type_map` as the tag itself (a string), and strings have no `__name__`,
so `type_map` applied to the listed tag `"int"` raises `AttributeError`
instead of returning `INTEGER`. -/
theorem C3_counterexample_plain_tag_raises :
    type_map (PyVal.pyStr ("int")) = Except.error no_dunder_name_err := rfl

/-- C3 amended: `type_map` is total on arguments that carry a `__name__`
attribute: when the lower-cased name is in the lookup table the listed
destination tag is returned (in particular for every listed pair), and
otherwise `STRING`; applied to a plain string tag it raises an attribute
error. -/
theorem C3_amended_total_on_name_carriers :
    (∀ n : String,
        type_map (PyVal.typeObj n)
          = Except.ok ((schema_dict.lookup (py_lower n)).getD ("STRING"))) ∧
      (∀ p ∈ schema_dict, type_map (PyVal.typeObj p.1) = Except.ok p.2) ∧
      (∀ s : String, type_map (PyVal.pyStr s) = Except.error no_dunder_name_err) := by
  refine ⟨?_, ?_, ?_⟩
  · intro n
    unfold type_map dunderName
    cases h : schema_dict.lookup (py_lower n) <;> simp [h]
  · decide
  · intro s
    rfl

/-- Witness for C3 amended at the listed pair (datetime2, DATETIME) and at a
plain string tag. -/
theorem C3_amended_witness :
    type_map (PyVal.typeObj ("datetime2")) = Except.ok ("DATETIME") ∧
      type_map (PyVal.pyStr ("datetime2")) = Except.error no_dunder_name_err :=
  ⟨C3_amended_total_on_name_carriers.2.1 (("datetime2"), ("DATETIME")) (by decide),
    C3_amended_total_on_name_carriers.2.2 ("datetime2")⟩

/-- C4: for every supported source type tag in the mapping table, mapping is
case-insensitive: `type_map` applied to (a type object carrying) the tag
equals `type_map` applied to the upper-cased tag, via the `.lower()` on
line 111. -/
theorem C4_type_map_case_insensitive :
    ∀ p ∈ schema_dict,
      type_map (PyVal.typeObj p.1) = type_map (PyVal.typeObj (py_upper p.1)) := by
  decide

/-- Witness for C4 at the table entry for smalldatetime. -/
theorem C4_type_map_case_insensitive_witness :
    type_map (PyVal.typeObj ("smalldatetime"))
      = type_map (PyVal.typeObj (py_upper ("smalldatetime"))) :=
  C4_type_map_case_insensitive (("smalldatetime"), ("DATETIME")) (by decide)

/-- C5: the claim says the descriptor name is the column name with spaces
replaced by underscores (Customer ID becomes Customer_ID); in the code no
descriptor is produced at all: the type entry of the dict literal raises
`AttributeError` (`self.type_map` is a classmethod, not a dict), so the call
on the Customer ID tuple fails before returning. -/
theorem C5_no_descriptor_for_customer_id :
    field_to_bigquery
        [PyVal.pyStr ("Customer ID"), PyVal.typeObj ("varchar"), PyVal.pyNone,
          PyVal.pyNone, PyVal.pyNone, PyVal.pyNone, PyVal.pyBool true]
      = Except.error get_attr_err := rfl

/-- C6: the claim says the mode entry is NULLABLE for a truthy flag at
position 6 and REQUIRED otherwise; in the code the mode entry is never
evaluated: the earlier type entry raises `AttributeError` on every tuple,
for a truthy and for a falsy flag alike. -/
theorem C6_no_mode_computed :
    field_to_bigquery
        [PyVal.pyStr ("n1"), PyVal.typeObj ("bit"), PyVal.pyNone, PyVal.pyNone,
          PyVal.pyNone, PyVal.pyNone, PyVal.pyBool true]
      = Except.error get_attr_err ∧
      field_to_bigquery
        [PyVal.pyStr ("n1"), PyVal.typeObj ("bit"), PyVal.pyNone, PyVal.pyNone,
          PyVal.pyNone, PyVal.pyNone, PyVal.pyBool false]
      = Except.error get_attr_err :=
  ⟨rfl, rfl⟩

/-- C7: the claim says the Order Date metadata yields the descriptor
(Order_Date, DATETIME, NULLABLE); in the code the call raises
`AttributeError` (classmethod `type_map` has no `get` attribute) and yields
no descriptor. -/
theorem C7_order_date_raises_instead_of_descriptor :
    field_to_bigquery
        [PyVal.pyStr ("Order Date"), PyVal.typeObj ("datetime2"), PyVal.pyNone,
          PyVal.pyNone, PyVal.pyNone, PyVal.pyNone, PyVal.pyBool true]
      = Except.error get_attr_err := rfl

/-- C8: the default value converter is the identity on its value argument for
every value and every schema type, and (being a total function) it raises
nothing. -/
theorem C8_convert_type_identity :
    ∀ value schema_type : PyVal, convert_type value schema_type = value := by
  intro value schema_type
  rfl

/-- C9: the claim says a short metadata tuple (no position 6) makes
`field_to_bigquery` fail with an index/lookup error; in the code it does fail
on such a tuple, but with `AttributeError` — raised at the `self.type_map.get`
callee before position 6 is ever read — and in Python `AttributeError` is not
a `LookupError`.  Evaluation at a six-element tuple. -/
theorem C9_short_tuple_fails_with_attribute_error :
    field_to_bigquery
        [PyVal.pyStr ("c"), PyVal.typeObj ("int"), PyVal.pyNone, PyVal.pyNone,
          PyVal.pyNone, PyVal.pyNone]
      = Except.error (PyError.attributeError ("function object has no attribute get")) := rfl

/-- C10: `type_map` resolves its argument through the `__name__` attribute:
for every argument carrying a `__name__`, the result is the table lookup of
the lower-cased name with fallback STRING; for every argument without a
`__name__` — such as a plain string tag — it raises an attribute error. -/
theorem C10_type_map_resolves_through_dunder_name :
    (∀ (x : PyVal) (n : String), dunderName x = some n →
        type_map x = Except.ok ((schema_dict.lookup (py_lower n)).getD ("STRING"))) ∧
      (∀ x : PyVal, dunderName x = Option.none →
        type_map x = Except.error no_dunder_name_err) := by
  constructor
  · intro x n h
    unfold type_map
    rw [h]
    cases hl : schema_dict.lookup (py_lower n) <;> simp [hl]
  · intro x h
    unfold type_map
    rw [h]

/-- Witness for C10 at the type object named uuid and at the plain string
uuid. -/
theorem C10_type_map_resolves_through_dunder_name_witness :
    type_map (PyVal.typeObj ("uuid"))
        = Except.ok ((schema_dict.lookup (py_lower ("uuid"))).getD ("STRING")) ∧
      type_map (PyVal.pyStr ("uuid")) = Except.error no_dunder_name_err :=
  ⟨C10_type_map_resolves_through_dunder_name.1 (PyVal.typeObj ("uuid")) ("uuid") rfl,
    C10_type_map_resolves_through_dunder_name.2 (PyVal.pyStr ("uuid")) rfl⟩

end MssqlToGcs
